import Mathlib

/-!
Verification of the `uuid` Go library (package `uuid`, files `uuid.go`).

Go strings and byte slices are modelled as `List Nat` with every element a
byte (`< 256`).  A `UUID` (Go: `type UUID [16]byte`) is a `List Nat` of
length 16.  Machine bytes are `Nat` with explicit truncation where the Go
code converts (`uint8(...)` is `% 256`).

The definitions below are transcribed from `uuid.go` and, for the parts of
the Go standard library it calls (`encoding/hex`, `strings.ReplaceAll`,
`copy`, `crypto/md5`, `crypto/sha1`), from the behaviour of those library
functions (MD5 per RFC 1321, SHA-1 per RFC 3174).
-/

/-- Go's `const hextable = "0123456789abcdef"` as a list of byte values. -/
def hextable : List Nat := [48, 49, 50, 51, 52, 53, 54, 55, 56, 57, 97, 98, 99, 100, 101, 102]

/-- `encoding/hex.fromHexChar`: value of one hex digit byte, `none` when the
byte is not a hex digit.  Accepts `0-9`, `a-f`, `A-F`. -/
def fromHexChar (c : Nat) : Option Nat :=
  if 48 ≤ c ∧ c ≤ 57 then some (c - 48)
  else if 97 ≤ c ∧ c ≤ 102 then some (c - 97 + 10)
  else if 65 ≤ c ∧ c ≤ 70 then some (c - 65 + 10)
  else none

/-- `encoding/hex.DecodeString` success behaviour: decodes consecutive pairs
of hex digits into bytes; fails on a non-hex byte or an odd-length input.
(The Go function also returns a partial prefix on failure, which `Parse`
discards, so the model keeps only the success value.) -/
def hexDecode : List Nat → Option (List Nat)
  | [] => some []
  | [_] => none
  | a :: b :: rest =>
    match fromHexChar a, fromHexChar b with
    | some x, some y => (hexDecode rest).map (fun l => ((x <<< 4) ||| y) :: l)
    | _, _ => none

/-- Go's built-in `copy(dst, src)` on byte slices, as a value: the first
`min dst.length src.length` bytes of `dst` are replaced by those of `src`,
the rest of `dst` is kept. -/
def goCopy (dst src : List Nat) : List Nat :=
  src.take dst.length ++ dst.drop (min dst.length src.length)

/-- The error returned by `Parse` (Go returns `error`; only the three
distinct error sites matter). -/
inductive ParseErr where
  | lengthErr (got : Nat)
  | sepErr
  | hexErr
  deriving DecidableEq, Repr

/-- `Parse` from `uuid.go`: length check, hyphen checks at indices
8/13/18/23, `strings.ReplaceAll(s, "-", "")` (removes every `'-'` = byte 45),
then `hex.DecodeString` and `copy` into a zeroed 16-byte array.
Returns the pair (uuid value, optional error), as the Go function does. -/
def Parse (s : List Nat) : List Nat × Option ParseErr :=
  let uuid := List.replicate 16 0
  if s.length ≠ 36 then (uuid, some (.lengthErr s.length))
  else if s.getD 8 0 ≠ 45 ∨ s.getD 13 0 ≠ 45 ∨ s.getD 18 0 ≠ 45 ∨ s.getD 23 0 ≠ 45 then
    (uuid, some .sepErr)
  else
    match hexDecode (s.filter (fun c => c != 45)) with
    | none => (uuid, some .hexErr)
    | some dec => (goCopy uuid dec, none)

/-- `MustParse` from `uuid.go`: returns the parsed UUID, or panics when
`Parse` fails.  The panic is modelled as `none`. -/
def MustParse (s : List Nat) : Option (List Nat) :=
  match Parse s with
  | (u, none) => some u
  | (_, some _) => none

/-- `UUID.String` from `uuid.go`: the 36-byte canonical rendering, built
exactly as the Go `formatted` array literal (hextable lookups of the high
and low nibble of each byte, hyphens after byte indices 3, 5, 7, 9). -/
def uuidString (u : List Nat) : List Nat :=
  [hextable.getD (u.getD 0 0 >>> 4) 0, hextable.getD (u.getD 0 0 &&& 15) 0,
   hextable.getD (u.getD 1 0 >>> 4) 0, hextable.getD (u.getD 1 0 &&& 15) 0,
   hextable.getD (u.getD 2 0 >>> 4) 0, hextable.getD (u.getD 2 0 &&& 15) 0,
   hextable.getD (u.getD 3 0 >>> 4) 0, hextable.getD (u.getD 3 0 &&& 15) 0,
   45,
   hextable.getD (u.getD 4 0 >>> 4) 0, hextable.getD (u.getD 4 0 &&& 15) 0,
   hextable.getD (u.getD 5 0 >>> 4) 0, hextable.getD (u.getD 5 0 &&& 15) 0,
   45,
   hextable.getD (u.getD 6 0 >>> 4) 0, hextable.getD (u.getD 6 0 &&& 15) 0,
   hextable.getD (u.getD 7 0 >>> 4) 0, hextable.getD (u.getD 7 0 &&& 15) 0,
   45,
   hextable.getD (u.getD 8 0 >>> 4) 0, hextable.getD (u.getD 8 0 &&& 15) 0,
   hextable.getD (u.getD 9 0 >>> 4) 0, hextable.getD (u.getD 9 0 &&& 15) 0,
   45,
   hextable.getD (u.getD 10 0 >>> 4) 0, hextable.getD (u.getD 10 0 &&& 15) 0,
   hextable.getD (u.getD 11 0 >>> 4) 0, hextable.getD (u.getD 11 0 &&& 15) 0,
   hextable.getD (u.getD 12 0 >>> 4) 0, hextable.getD (u.getD 12 0 &&& 15) 0,
   hextable.getD (u.getD 13 0 >>> 4) 0, hextable.getD (u.getD 13 0 &&& 15) 0,
   hextable.getD (u.getD 14 0 >>> 4) 0, hextable.getD (u.getD 14 0 &&& 15) 0,
   hextable.getD (u.getD 15 0 >>> 4) 0, hextable.getD (u.getD 15 0 &&& 15) 0]

/-- `UUID.AppendFormatted` from `uuid.go`: builds the same 36-byte
`formatted` array and appends it to the caller's buffer. -/
def appendFormatted (u : List Nat) (buf : List Nat) : List Nat :=
  buf ++
  [hextable.getD (u.getD 0 0 >>> 4) 0, hextable.getD (u.getD 0 0 &&& 15) 0,
   hextable.getD (u.getD 1 0 >>> 4) 0, hextable.getD (u.getD 1 0 &&& 15) 0,
   hextable.getD (u.getD 2 0 >>> 4) 0, hextable.getD (u.getD 2 0 &&& 15) 0,
   hextable.getD (u.getD 3 0 >>> 4) 0, hextable.getD (u.getD 3 0 &&& 15) 0,
   45,
   hextable.getD (u.getD 4 0 >>> 4) 0, hextable.getD (u.getD 4 0 &&& 15) 0,
   hextable.getD (u.getD 5 0 >>> 4) 0, hextable.getD (u.getD 5 0 &&& 15) 0,
   45,
   hextable.getD (u.getD 6 0 >>> 4) 0, hextable.getD (u.getD 6 0 &&& 15) 0,
   hextable.getD (u.getD 7 0 >>> 4) 0, hextable.getD (u.getD 7 0 &&& 15) 0,
   45,
   hextable.getD (u.getD 8 0 >>> 4) 0, hextable.getD (u.getD 8 0 &&& 15) 0,
   hextable.getD (u.getD 9 0 >>> 4) 0, hextable.getD (u.getD 9 0 &&& 15) 0,
   45,
   hextable.getD (u.getD 10 0 >>> 4) 0, hextable.getD (u.getD 10 0 &&& 15) 0,
   hextable.getD (u.getD 11 0 >>> 4) 0, hextable.getD (u.getD 11 0 &&& 15) 0,
   hextable.getD (u.getD 12 0 >>> 4) 0, hextable.getD (u.getD 12 0 &&& 15) 0,
   hextable.getD (u.getD 13 0 >>> 4) 0, hextable.getD (u.getD 13 0 &&& 15) 0,
   hextable.getD (u.getD 14 0 >>> 4) 0, hextable.getD (u.getD 14 0 &&& 15) 0,
   hextable.getD (u.getD 15 0 >>> 4) 0, hextable.getD (u.getD 15 0 &&& 15) 0]

/-- Lowercasing of a byte, for the statement of the round-trip law: ASCII
uppercase letters are shifted to lowercase, everything else is unchanged. -/
def lowerByte (c : Nat) : Nat := if 65 ≤ c ∧ c ≤ 90 then c + 32 else c

/-- Spec-side predicate: the byte is an ASCII hex digit
(`0-9`, `a-f`, `A-F`). -/
def isHexDigitByte (c : Nat) : Bool :=
  (48 ≤ c && c ≤ 57) || (97 ≤ c && c ≤ 102) || (65 ≤ c && c ≤ 70)

/-! ### MD5 (RFC 1321) and SHA-1 (RFC 3174), the `crypto/md5` / `crypto/sha1`
digests used by the generator.  Words are `Nat` reduced mod `2 ^ 32`. -/

/-- `2 ^ 32`, the word modulus. -/
def w32 : Nat := 4294967296

/-- Left-rotation of a 32-bit word. -/
def rotl32 (x s : Nat) : Nat := ((x <<< s) ||| (x >>> (32 - s))) % w32

/-- Split a byte list into little-endian 32-bit words (fuel-driven; the
fuel bounds the number of words produced). -/
def toWordsLE : Nat → List Nat → List Nat
  | 0, _ => []
  | _ + 1, b0 :: b1 :: b2 :: b3 :: rest =>
    (b0 + b1 * 256 + b2 * 65536 + b3 * 16777216) :: toWordsLE (rest.length) rest
  | _ + 1, _ => []

/-- Split a byte list into big-endian 32-bit words. -/
def toWordsBE : Nat → List Nat → List Nat
  | 0, _ => []
  | _ + 1, b0 :: b1 :: b2 :: b3 :: rest =>
    (b0 * 16777216 + b1 * 65536 + b2 * 256 + b3) :: toWordsBE (rest.length) rest
  | _ + 1, _ => []

/-- A 32-bit word as four little-endian bytes. -/
def wordLE (x : Nat) : List Nat :=
  [x % 256, x / 256 % 256, x / 65536 % 256, x / 16777216 % 256]

/-- A 32-bit word as four big-endian bytes. -/
def wordBE (x : Nat) : List Nat :=
  [x / 16777216 % 256, x / 65536 % 256, x / 256 % 256, x % 256]

/-- A 64-bit length as eight little-endian bytes (MD5 length field). -/
def lenLE (n : Nat) : List Nat :=
  (List.range 8).map (fun i => n / 256 ^ i % 256)

/-- A 64-bit length as eight big-endian bytes (SHA-1 length field). -/
def lenBE (n : Nat) : List Nat :=
  (List.range 8).map (fun i => n / 256 ^ (7 - i) % 256)

/-- Merkle–Damgård padding shared by MD5 and SHA-1: a `0x80` byte, zero
bytes up to 56 mod 64, then the bit length in the given 8-byte encoding. -/
def padMsg (lenBytes : Nat → List Nat) (msg : List Nat) : List Nat :=
  msg ++ 128 :: List.replicate ((119 - msg.length % 64) % 64) 0 ++
    lenBytes (msg.length * 8 % 18446744073709551616)

/-- Split a padded message into 64-byte blocks (fuel-driven). -/
def toBlocks : Nat → List Nat → List (List Nat)
  | 0, _ => []
  | _ + 1, [] => []
  | f + 1, l => l.take 64 :: toBlocks f (l.drop 64)

/-- MD5 working state: four 32-bit words. -/
structure MD5State where
  a : Nat
  b : Nat
  c : Nat
  d : Nat
  deriving DecidableEq, Repr

/-- MD5 initial state (RFC 1321). -/
def md5Init : MD5State := ⟨1732584193, 4023233417, 2562383102, 271733878⟩

/-- The 64 MD5 round constants `K[i] = ⌊2^32·|sin(i+1)|⌋`. -/
def md5K : List Nat :=
  [3614090360, 3905402710, 606105819, 3250441966, 4118548399, 1200080426,
   2821735955, 4249261313, 1770035416, 2336552879, 4294925233, 2304563134,
   1804603682, 4254626195, 2792965006, 1236535329, 4129170786, 3225465664,
   643717713, 3921069994, 3593408605, 38016083, 3634488961, 3889429448,
   568446438, 3275163606, 4107603335, 1163531501, 2850285829, 4243563512,
   1735328473, 2368359562, 4294588738, 2272392833, 1839030562, 4259657740,
   2763975236, 1272893353, 4139469664, 3200236656, 681279174, 3936430074,
   3572445317, 76029189, 3654602809, 3873151461, 530742520, 3299628645,
   4096336452, 1126891415, 2878612391, 4237533241, 1700485571, 2399980690,
   4293915773, 2240044497, 1873313359, 4264355552, 2734768916, 1309151649,
   4149444226, 3174756917, 718787259, 3951481745]

/-- The 64 MD5 per-round left-rotation amounts. -/
def md5S : List Nat :=
  [7, 12, 17, 22, 7, 12, 17, 22, 7, 12, 17, 22, 7, 12, 17, 22,
   5, 9, 14, 20, 5, 9, 14, 20, 5, 9, 14, 20, 5, 9, 14, 20,
   4, 11, 16, 23, 4, 11, 16, 23, 4, 11, 16, 23, 4, 11, 16, 23,
   6, 10, 15, 21, 6, 10, 15, 21, 6, 10, 15, 21, 6, 10, 15, 21]

/-- MD5 round function and message index for round `i`. -/
def md5FG (i b c d : Nat) : Nat × Nat :=
  if i < 16 then ((b &&& c) ||| ((b ^^^ 4294967295) &&& d), i)
  else if i < 32 then ((d &&& b) ||| ((d ^^^ 4294967295) &&& c), (5 * i + 1) % 16)
  else if i < 48 then (b ^^^ c ^^^ d, (3 * i + 5) % 16)
  else (c ^^^ (b ||| (d ^^^ 4294967295)), (7 * i) % 16)

/-- One MD5 round on state `st` with message words `m`. -/
def md5Round (m : List Nat) (i : Nat) (st : MD5State) : MD5State :=
  let fg := md5FG i st.b st.c st.d
  let f2 := (fg.1 + st.a + md5K.getD i 0 + m.getD fg.2 0) % w32
  ⟨st.d, (st.b + rotl32 f2 (md5S.getD i 0)) % w32, st.b, st.c⟩

/-- Runs MD5 rounds `i, i+1, …` while fuel lasts. -/
def md5Rounds (m : List Nat) : Nat → Nat → MD5State → MD5State
  | _, 0, st => st
  | i, f + 1, st => md5Rounds m (i + 1) f (md5Round m i st)

/-- MD5 compression of one 64-byte block. -/
def md5Block (st : MD5State) (block : List Nat) : MD5State :=
  let m := toWordsLE 16 block
  let r := md5Rounds m 0 64 st
  ⟨(st.a + r.a) % w32, (st.b + r.b) % w32, (st.c + r.c) % w32, (st.d + r.d) % w32⟩

/-- `crypto/md5`: the 16-byte MD5 digest of a byte sequence. -/
def md5Sum (msg : List Nat) : List Nat :=
  let p := padMsg lenLE msg
  let st := (toBlocks p.length p).foldl md5Block md5Init
  wordLE st.a ++ wordLE st.b ++ wordLE st.c ++ wordLE st.d

/-- SHA-1 working state: five 32-bit words. -/
structure SHA1State where
  h0 : Nat
  h1 : Nat
  h2 : Nat
  h3 : Nat
  h4 : Nat
  deriving DecidableEq, Repr

/-- SHA-1 initial state (RFC 3174). -/
def sha1Init : SHA1State := ⟨1732584193, 4023233417, 2562383102, 271733878, 3285377520⟩

/-- Extends the 16 message words to 80 by the SHA-1 schedule recurrence
`w[i] = rotl1 (w[i-3] ^ w[i-8] ^ w[i-14] ^ w[i-16])`, appending while fuel
lasts. -/
def sha1Extend : Nat → List Nat → List Nat
  | 0, w => w
  | f + 1, w =>
    sha1Extend f (w ++ [rotl32 (w.getD (w.length - 3) 0 ^^^ w.getD (w.length - 8) 0 ^^^
      w.getD (w.length - 14) 0 ^^^ w.getD (w.length - 16) 0) 1])

/-- SHA-1 round function and constant for round `i`. -/
def sha1FK (i b c d : Nat) : Nat × Nat :=
  if i < 20 then ((b &&& c) ||| ((b ^^^ 4294967295) &&& d), 1518500249)
  else if i < 40 then (b ^^^ c ^^^ d, 1859775393)
  else if i < 60 then ((b &&& c) ||| (b &&& d) ||| (c &&& d), 2400959708)
  else (b ^^^ c ^^^ d, 3395469782)

/-- One SHA-1 round on state `st` with schedule `w`. -/
def sha1Round (w : List Nat) (i : Nat) (st : SHA1State) : SHA1State :=
  let fk := sha1FK i st.h1 st.h2 st.h3
  let temp := (rotl32 st.h0 5 + fk.1 + st.h4 + fk.2 + w.getD i 0) % w32
  ⟨temp, st.h0, rotl32 st.h1 30, st.h2, st.h3⟩

/-- Runs SHA-1 rounds `i, i+1, …` while fuel lasts. -/
def sha1Rounds (w : List Nat) : Nat → Nat → SHA1State → SHA1State
  | _, 0, st => st
  | i, f + 1, st => sha1Rounds w (i + 1) f (sha1Round w i st)

/-- SHA-1 compression of one 64-byte block. -/
def sha1Block (st : SHA1State) (block : List Nat) : SHA1State :=
  let w := sha1Extend 64 (toWordsBE 16 block)
  let r := sha1Rounds w 0 80 st
  ⟨(st.h0 + r.h0) % w32, (st.h1 + r.h1) % w32, (st.h2 + r.h2) % w32,
   (st.h3 + r.h3) % w32, (st.h4 + r.h4) % w32⟩

/-- `crypto/sha1`: the 20-byte SHA-1 digest of a byte sequence. -/
def sha1Sum (msg : List Nat) : List Nat :=
  let p := padMsg lenBE msg
  let st := (toBlocks p.length p).foldl sha1Block sha1Init
  wordBE st.h0 ++ wordBE st.h1 ++ wordBE st.h2 ++ wordBE st.h3 ++ wordBE st.h4

/-! ### The hash-based generator (`Generator`, `NewMD5Gen`, `NewSHA1Gen`,
`Generate`) from `uuid.go`.

Go's `hash.Hash` object is stateful (`Reset`/`Write`/`Write`/`Sum`), but
`Generate` always resets it first, so its value-level effect is the pure
digest of the concatenated writes; the generator's `hash` field is that
digest function.  `hg.buf = hg.h.Sum(hg.buf[0:0])` makes the new `buf`
exactly the digest (appended to the empty prefix of the reused buffer);
the state update is modelled explicitly so that buffer reuse across calls
is visible. -/

/-- The `Generator` struct of `uuid.go`.  `nspace` is the field Go calls
`namespace` (a Lean keyword), `hash` stands for the `hash.Hash` object. -/
structure Generator where
  hash : List Nat → List Nat
  nspace : List Nat
  buf : List Nat
  version : Nat

/-- `NewMD5Gen` from `uuid.go`: MD5 digest, version tag 3, 16-byte buffer. -/
def NewMD5Gen (ns : List Nat) : Generator :=
  ⟨md5Sum, ns, List.replicate 16 0, 3⟩

/-- `NewSHA1Gen` from `uuid.go`: SHA-1 digest, version tag 5, 20-byte buffer. -/
def NewSHA1Gen (ns : List Nat) : Generator :=
  ⟨sha1Sum, ns, List.replicate 20 0, 5⟩

/-- `Generator.Generate` from `uuid.go`: digest of namespace ++ input into
the reused buffer, `copy` of the buffer into the 16-byte target, then the
version nibble and RFC 4122 variant bits.  Returns the updated generator
(new `buf`) and the new target value; `uint8((hg.version&0xf)<<4)` is the
`% 256` truncation. -/
def Generator.Generate (hg : Generator) (target input : List Nat) :
    Generator × List Nat :=
  let buf := hg.hash (hg.nspace ++ input)
  let t1 := goCopy target buf
  let t2 := t1.set 6 ((t1.getD 6 0 &&& 15) ||| ((hg.version &&& 15) <<< 4 % 256))
  let t3 := t2.set 8 ((t2.getD 8 0 &&& 63) ||| 128)
  ({ hg with buf := buf }, t3)

/-- Runs a sequence of `Generate` calls on a generator, keeping only the
evolving generator state (models arbitrary interleaved uses). -/
def runSeq (g : Generator) : List (List Nat × List Nat) → Generator
  | [] => g
  | (t, i) :: rest => runSeq (g.Generate t i).1 rest

/-- Spec-side formula for RFC 4122 name-based generation (written from the
spec's words, for comparison with `Generator.Generate`): the first 16 bytes
of the digest of namespace ++ input, with the high nibble of byte 6
replaced by the version and the top two bits of byte 8 replaced by `10`. -/
def specNameBased (digest : List Nat → List Nat) (version : Nat)
    (ns input : List Nat) : List Nat :=
  let d := (digest (ns ++ input)).take 16
  (d.set 6 ((d.getD 6 0 &&& 15) ||| (version <<< 4))).set 8
    ((d.getD 8 0 &&& 63) ||| 128)

/-! ### Concrete byte strings used by the repository's test vectors. -/

/-- ASCII bytes of `"15588635-a45e-4867-aadb-dbf0385ade95"` (the test
namespace). -/
def nsStrBytes : List Nat :=
  [49, 53, 53, 56, 56, 54, 51, 53, 45, 97, 52, 53, 101, 45, 52, 56, 54, 55,
   45, 97, 97, 100, 98, 45, 100, 98, 102, 48, 51, 56, 53, 97, 100, 101, 57, 53]

/-- ASCII bytes of `"input 1"`. -/
def input1Bytes : List Nat := [105, 110, 112, 117, 116, 32, 49]

/-- ASCII bytes of the 90-character long test input
`"input 123456…123456"`. -/
def input2Bytes : List Nat :=
  [105, 110, 112, 117, 116, 32, 49, 50, 51, 52, 53, 54, 49, 50, 51, 52, 53,
   54, 49, 50, 51, 52, 53, 54, 49, 50, 51, 52, 53, 54, 49, 50, 51, 52, 53,
   54, 49, 50, 51, 52, 53, 54, 49, 50, 51, 52, 53, 54, 49, 50, 51, 52, 53,
   54, 49, 50, 51, 52, 53, 54, 49, 50, 51, 52, 53, 54, 49, 50, 51, 52, 53,
   54, 49, 50, 51, 52, 53, 54, 49, 50, 51, 52, 53, 54, 49, 50, 51, 52, 53, 54]

/-- ASCII bytes of `"4c816dc1-9418-502e-9b91-f17b83891bf8"`. -/
def expected1Bytes : List Nat :=
  [52, 99, 56, 49, 54, 100, 99, 49, 45, 57, 52, 49, 56, 45, 53, 48, 50, 101,
   45, 57, 98, 57, 49, 45, 102, 49, 55, 98, 56, 51, 56, 57, 49, 98, 102, 56]

/-- ASCII bytes of `"0a550dec-ba3e-52c2-a54d-60795ea13c90"`. -/
def expected2Bytes : List Nat :=
  [48, 97, 53, 53, 48, 100, 101, 99, 45, 98, 97, 51, 101, 45, 53, 50, 99, 50,
   45, 97, 53, 52, 100, 45, 54, 48, 55, 57, 53, 101, 97, 49, 51, 99, 57, 48]

/-! ### Spec-side predicates on parse inputs. -/

/-- The claims' well-formedness predicate for a canonical 36-character UUID
string: length 36, hyphens exactly at indices 8/13/18/23, hex digits at the
remaining 32 indices. -/
def canonical36 (s : List Nat) : Prop :=
  s.length = 36 ∧ s.getD 8 0 = 45 ∧ s.getD 13 0 = 45 ∧ s.getD 18 0 = 45 ∧
  s.getD 23 0 = 45 ∧
  ∀ i < 36, i ≠ 8 → i ≠ 13 → i ≠ 18 → i ≠ 23 → isHexDigitByte (s.getD i 0) = true

instance (s : List Nat) : Decidable (canonical36 s) := by
  unfold canonical36
  haveI hball : Decidable (∀ i < 36, i ≠ 8 → i ≠ 13 → i ≠ 18 → i ≠ 23 →
      isHexDigitByte (s.getD i 0) = true) := by infer_instance
  infer_instance

/-- The condition under which `Parse` actually succeeds: length 36, hyphens
at the four separator indices, and the string with ALL hyphens removed has
even length and only hex digits.  (Weaker than `canonical36`: extra hyphens
among the other 32 positions are tolerated as long as what is left decodes.) -/
def parseAccepts (s : List Nat) : Prop :=
  s.length = 36 ∧ s.getD 8 0 = 45 ∧ s.getD 13 0 = 45 ∧ s.getD 18 0 = 45 ∧
  s.getD 23 0 = 45 ∧
  (s.filter (fun c => c != 45)).length % 2 = 0 ∧
  ∀ c ∈ s.filter (fun c => c != 45), isHexDigitByte c = true

instance (s : List Nat) : Decidable (parseAccepts s) := by
  unfold parseAccepts; infer_instance

/-! ### Helper lemmas. -/

theorem getD_set_ne (l : List Nat) {i j : Nat} (x : Nat) (h : i ≠ j) :
    (l.set i x).getD j 0 = l.getD j 0 := by
  simp [List.getD, List.getElem?_set_ne h]

theorem getD_set_eq (l : List Nat) {i : Nat} (x : Nat) (h : i < l.length) :
    (l.set i x).getD i 0 = x := by
  simp [List.getD, List.getElem?_set_eq_of_lt, h]

theorem fromHexChar_isSome_iff (c : Nat) :
    (fromHexChar c).isSome = true ↔ isHexDigitByte c = true := by
  unfold fromHexChar isHexDigitByte
  split_ifs <;> simp <;> omega

theorem hexDecode_isSome_iff (l : List Nat) :
    (hexDecode l).isSome = true ↔
      l.length % 2 = 0 ∧ ∀ c ∈ l, isHexDigitByte c = true := by
  induction l using hexDecode.induct with
  | case1 => simp [hexDecode]
  | case2 a => simp [hexDecode]
  | case3 a b rest x y hx hy ih =>
    have ha : isHexDigitByte a = true := (fromHexChar_isSome_iff a).1 (by rw [hy]; rfl)
    have hb : isHexDigitByte b = true := (fromHexChar_isSome_iff b).1 (by rw [hx]; rfl)
    simp only [hexDecode, hx, hy]
    simp [ha, hb, ih, Nat.add_mod_right]
    omega
  | case4 a b rest h =>
    simp only [hexDecode]
    rcases h1 : fromHexChar a with _ | x <;> rcases h2 : fromHexChar b with _ | y
    · simp only [Option.isSome_none, Bool.false_eq_true, false_iff]
      intro hcon
      have := (fromHexChar_isSome_iff a).2 (hcon.2 a (by simp))
      rw [h1] at this; simp at this
    · simp only [Option.isSome_none, Bool.false_eq_true, false_iff]
      intro hcon
      have := (fromHexChar_isSome_iff a).2 (hcon.2 a (by simp))
      rw [h1] at this; simp at this
    · simp only [Option.isSome_none, Bool.false_eq_true, false_iff]
      intro hcon
      have := (fromHexChar_isSome_iff b).2 (hcon.2 b (by simp))
      rw [h2] at this; simp at this
    · exact absurd (h x y h1 h2) (by simp)

theorem md5Sum_length (msg : List Nat) : (md5Sum msg).length = 16 := by
  simp [md5Sum, wordLE]

theorem sha1Sum_length (msg : List Nat) : (sha1Sum msg).length = 20 := by
  simp [sha1Sum, wordBE]

theorem goCopy_of_length_le (t src : List Nat) (ht : t.length = 16)
    (h : 16 ≤ src.length) : goCopy t src = src.take 16 := by
  simp [goCopy, ht, Nat.min_eq_left h, List.drop_eq_nil_iff]

/-- `Generate`'s target value, closed form: it is the spec-side name-based
formula, provided the digest has at least 16 bytes, the target is a real
16-byte UUID and the version fits in the nibble. -/
theorem Generate_eq_spec (g : Generator) (t input : List Nat)
    (ht : t.length = 16) (hd : 16 ≤ (g.hash (g.nspace ++ input)).length)
    (hv : g.version < 16) :
    (g.Generate t input).2 = specNameBased g.hash g.version g.nspace input := by
  have hand : g.version &&& 15 = g.version := by
    have := Nat.and_pow_two_sub_one_eq_mod g.version 4
    simp at this
    omega
  have hshift : g.version <<< 4 % 256 = g.version <<< 4 := by
    rw [Nat.shiftLeft_eq]
    have : g.version * 2 ^ 4 < 256 := by omega
    omega
  simp only [Generator.Generate, specNameBased]
  rw [goCopy_of_length_le t _ ht hd, hand, hshift,
    getD_set_ne _ _ (show (6 : Nat) ≠ 8 by omega)]

/-- `runSeq` never changes the digest function, the namespace or the
version of a generator. -/
theorem runSeq_fields (g : Generator) (calls : List (List Nat × List Nat)) :
    (runSeq g calls).hash = g.hash ∧ (runSeq g calls).nspace = g.nspace ∧
    (runSeq g calls).version = g.version := by
  induction calls generalizing g with
  | nil => exact ⟨rfl, rfl, rfl⟩
  | cons c rest ih =>
    rcases c with ⟨t, i⟩
    simpa [runSeq, Generator.Generate] using ih _

/-- Bytes 6 and 8 of the name-based formula, in closed form. -/
theorem specNameBased_bits (digest : List Nat → List Nat) (v : Nat)
    (ns input : List Nat) (h16 : 16 ≤ (digest (ns ++ input)).length) :
    (specNameBased digest v ns input).getD 6 0 =
      (((digest (ns ++ input)).take 16).getD 6 0 &&& 15) ||| v <<< 4 ∧
    (specNameBased digest v ns input).getD 8 0 =
      (((digest (ns ++ input)).take 16).getD 8 0 &&& 63) ||| 128 := by
  have hlen : ((digest (ns ++ input)).take 16).length = 16 := by
    simp [List.length_take, Nat.min_eq_left h16]
  simp only [specNameBased]
  constructor
  · rw [getD_set_ne _ _ (show (8 : Nat) ≠ 6 by omega),
      getD_set_eq _ _ (by omega)]
  · rw [getD_set_eq _ _ (by simp [List.length_set]; omega)]

theorem or48_shiftRight4 : ∀ y < 16, (y ||| 48) >>> 4 = 3 := by decide

theorem or80_shiftRight4 : ∀ y < 16, (y ||| 80) >>> 4 = 5 := by decide

theorem or128_shiftRight6 : ∀ y < 64, (y ||| 128) >>> 6 = 2 := by decide

/-! ### Claim theorems. -/

/-- C6: for every UUID `u` and byte buffer `buf`, `AppendFormatted` returns
`buf` extended by exactly the 36 bytes of `String u`, leaving the
pre-existing contents of `buf` unchanged; on the empty buffer it equals the
bytes of `String u`, so the two rendering paths agree byte for byte. -/
theorem appendFormatted_eq_string (u buf : List Nat) :
    appendFormatted u buf = buf ++ uuidString u ∧ (uuidString u).length = 36 ∧
    appendFormatted u [] = uuidString u :=
  ⟨rfl, rfl, rfl⟩

/-- C9: `MustParse s` returns exactly the UUID `Parse s` returns whenever
`Parse s` succeeds, and panics (modelled `none`) exactly when `Parse s`
fails; it never returns a value on an input `Parse` rejects. -/
theorem mustParse_spec (s : List Nat) :
    (∀ u, MustParse s = some u ↔ (Parse s).1 = u ∧ (Parse s).2 = none) ∧
    (MustParse s = none ↔ (Parse s).2.isSome = true) := by
  rcases h : Parse s with ⟨u, e⟩
  rcases e with _ | e
  · simp only [MustParse, h]
    refine ⟨fun u' => ?_, by simp⟩
    simp [eq_comm]
  · simp [MustParse, h]

/-- C9 witness: `MustParse` on the test namespace string returns the parsed
value. -/
theorem mustParse_spec_witness : MustParse nsStrBytes = some ((Parse nsStrBytes).1) :=
  ((mustParse_spec nsStrBytes).1 _).mpr ⟨rfl, by decide⟩

/-- C10: whenever `Parse s` fails, the UUID value returned alongside the
error is the all-zero 16-byte UUID, for every input `s`. -/
theorem parse_fail_zero (s : List Nat) (e : ParseErr)
    (h : (Parse s).2 = some e) : (Parse s).1 = List.replicate 16 0 := by
  simp only [Parse] at h ⊢
  split_ifs at h ⊢
  · rfl
  · rfl
  · rcases hd : hexDecode (s.filter (fun c => c != 45)) with _ | dec <;> simp_all

/-- C10 witness: the empty string fails to parse and the returned value is
the zero UUID. -/
theorem parse_fail_zero_witness :
    (Parse []).2 = some (ParseErr.lengthErr 0) ∧
    (Parse []).1 = List.replicate 16 0 :=
  ⟨by decide, parse_fail_zero [] (ParseErr.lengthErr 0) (by decide)⟩

/-- C4: every `Generate` output has its byte-6 high nibble equal to the
generator's version (3 for MD5, 5 for SHA-1) and the top two bits of byte 8
equal to binary 10. -/
theorem generate_version_variant (ns input target : List Nat)
    (ht : target.length = 16) :
    ((((NewMD5Gen ns).Generate target input).2.getD 6 0) >>> 4 = 3 ∧
     (((NewMD5Gen ns).Generate target input).2.getD 8 0) >>> 6 = 2) ∧
    ((((NewSHA1Gen ns).Generate target input).2.getD 6 0) >>> 4 = 5 ∧
     (((NewSHA1Gen ns).Generate target input).2.getD 8 0) >>> 6 = 2) := by
  have hmd5 : ((NewMD5Gen ns).Generate target input).2 =
      specNameBased md5Sum 3 ns input :=
    Generate_eq_spec _ _ _ ht (by simp [NewMD5Gen, md5Sum_length]) (by simp [NewMD5Gen])
  have hsha1 : ((NewSHA1Gen ns).Generate target input).2 =
      specNameBased sha1Sum 5 ns input :=
    Generate_eq_spec _ _ _ ht (by simp [NewSHA1Gen, sha1Sum_length]) (by simp [NewSHA1Gen])
  rw [hmd5, hsha1]
  obtain ⟨m6, m8⟩ := specNameBased_bits md5Sum 3 ns input (by rw [md5Sum_length])
  obtain ⟨s6, s8⟩ := specNameBased_bits sha1Sum 5 ns input
    (by rw [sha1Sum_length]; omega)
  rw [m6, m8, s6, s8]
  have b1 : ((md5Sum (ns ++ input)).take 16).getD 6 0 &&& 15 ≤ 15 := Nat.and_le_right
  have b2 : ((md5Sum (ns ++ input)).take 16).getD 8 0 &&& 63 ≤ 63 := Nat.and_le_right
  have b3 : ((sha1Sum (ns ++ input)).take 16).getD 6 0 &&& 15 ≤ 15 := Nat.and_le_right
  have b4 : ((sha1Sum (ns ++ input)).take 16).getD 8 0 &&& 63 ≤ 63 := Nat.and_le_right
  exact ⟨⟨or48_shiftRight4 _ (by omega), or128_shiftRight6 _ (by omega)⟩,
    or80_shiftRight4 _ (by omega), or128_shiftRight6 _ (by omega)⟩

/-- C2: for either generator, `Generate` writes into the target exactly the
first 16 bytes of the digest of (namespace bytes ++ input), except that
byte 6's high nibble becomes the version (3 for MD5, 5 for SHA-1; low
nibble kept) and byte 8's top two bits become binary 10 (low six bits
kept) — which is exactly `specNameBased`; for SHA-1 only the first 16 of
the 20 digest bytes are used. -/
theorem generate_matches_digest (ns input target : List Nat)
    (hns : ns.length = 16) (ht : target.length = 16) :
    ((NewMD5Gen ns).Generate target input).2 = specNameBased md5Sum 3 ns input ∧
    ((NewSHA1Gen ns).Generate target input).2 = specNameBased sha1Sum 5 ns input ∧
    (md5Sum (ns ++ input)).length = 16 ∧ (sha1Sum (ns ++ input)).length = 20 :=
  ⟨Generate_eq_spec _ _ _ ht (by simp [NewMD5Gen, md5Sum_length]) (by simp [NewMD5Gen]),
   Generate_eq_spec _ _ _ ht (by simp [NewSHA1Gen, sha1Sum_length]) (by simp [NewSHA1Gen]),
   md5Sum_length _, sha1Sum_length _⟩

/-- C8: `Generate` is deterministic and history-free: for a fixed generator
kind and namespace, the output for a given input is the same whether the
generator is fresh or has already served any sequence of other calls, and
it does not depend on the target's prior contents — every target byte is
overwritten. -/
theorem generate_deterministic (ns input t1 t2 : List Nat)
    (calls : List (List Nat × List Nat))
    (h1 : t1.length = 16) (h2 : t2.length = 16) :
    ((runSeq (NewMD5Gen ns) calls).Generate t1 input).2 =
      ((NewMD5Gen ns).Generate t2 input).2 ∧
    ((runSeq (NewSHA1Gen ns) calls).Generate t1 input).2 =
      ((NewSHA1Gen ns).Generate t2 input).2 := by
  obtain ⟨mh, mn, mv⟩ := runSeq_fields (NewMD5Gen ns) calls
  obtain ⟨sh, sn, sv⟩ := runSeq_fields (NewSHA1Gen ns) calls
  constructor
  · rw [Generate_eq_spec _ _ _ h1 (by rw [mh, mn]; simp [NewMD5Gen, md5Sum_length])
        (by rw [mv]; simp [NewMD5Gen]),
      Generate_eq_spec _ _ _ h2 (by simp [NewMD5Gen, md5Sum_length]) (by simp [NewMD5Gen]),
      mh, mn, mv]
  · rw [Generate_eq_spec _ _ _ h1 (by rw [sh, sn]; simp [NewSHA1Gen, sha1Sum_length])
        (by rw [sv]; simp [NewSHA1Gen]),
      Generate_eq_spec _ _ _ h2 (by simp [NewSHA1Gen, sha1Sum_length]) (by simp [NewSHA1Gen]),
      sh, sn, sv]

/-- C2 witness: instantiated at the zero namespace, empty input and zero
target. -/
theorem generate_matches_digest_witness :
    (List.replicate 16 0 : List Nat).length = 16 ∧
    (((NewMD5Gen (List.replicate 16 0)).Generate (List.replicate 16 0) []).2 =
        specNameBased md5Sum 3 (List.replicate 16 0) [] ∧
      ((NewSHA1Gen (List.replicate 16 0)).Generate (List.replicate 16 0) []).2 =
        specNameBased sha1Sum 5 (List.replicate 16 0) [] ∧
      (md5Sum (List.replicate 16 0 ++ [])).length = 16 ∧
      (sha1Sum (List.replicate 16 0 ++ [])).length = 20) :=
  ⟨by decide, generate_matches_digest _ _ _ (by decide) (by decide)⟩

/-- C4 witness: instantiated at the zero namespace, empty input and zero
target. -/
theorem generate_version_variant_witness :
    (List.replicate 16 0 : List Nat).length = 16 ∧
    (((((NewMD5Gen (List.replicate 16 0)).Generate (List.replicate 16 0) []).2.getD 6 0) >>> 4 = 3 ∧
      (((NewMD5Gen (List.replicate 16 0)).Generate (List.replicate 16 0) []).2.getD 8 0) >>> 6 = 2) ∧
     ((((NewSHA1Gen (List.replicate 16 0)).Generate (List.replicate 16 0) []).2.getD 6 0) >>> 4 = 5 ∧
      (((NewSHA1Gen (List.replicate 16 0)).Generate (List.replicate 16 0) []).2.getD 8 0) >>> 6 = 2)) :=
  ⟨by decide, generate_version_variant _ _ _ (by decide)⟩

/-- C8 witness: instantiated at the zero namespace and empty call list. -/
theorem generate_deterministic_witness :
    (List.replicate 16 0 : List Nat).length = 16 ∧
    (((runSeq (NewMD5Gen (List.replicate 16 0)) []).Generate (List.replicate 16 0) []).2 =
        ((NewMD5Gen (List.replicate 16 0)).Generate (List.replicate 16 0) []).2 ∧
     ((runSeq (NewSHA1Gen (List.replicate 16 0)) []).Generate (List.replicate 16 0) []).2 =
        ((NewSHA1Gen (List.replicate 16 0)).Generate (List.replicate 16 0) []).2) :=
  ⟨by decide, generate_deterministic _ _ _ _ [] (by decide) (by decide)⟩

set_option maxRecDepth 40000 in
/-- C5: with namespace `15588635-a45e-4867-aadb-dbf0385ade95` and the SHA-1
(version 5) generator, `Generate` on `"input 1"` yields the UUID whose
canonical string is `4c816dc1-9418-502e-9b91-f17b83891bf8`, and on the long
`"input 123456…"` input yields `0a550dec-ba3e-52c2-a54d-60795ea13c90`. -/
theorem sha1_test_vectors :
    (Parse nsStrBytes).2 = none ∧
    uuidString ((NewSHA1Gen (Parse nsStrBytes).1).Generate
      (List.replicate 16 0) input1Bytes).2 = expected1Bytes ∧
    uuidString ((NewSHA1Gen (Parse nsStrBytes).1).Generate
      (List.replicate 16 0) input2Bytes).2 = expected2Bytes := by
  decide

/-- A 36-byte input with hyphens at the four separator indices AND at
indices 6 and 7 (`"000000---0000-0000-0000-000000000000"`): positions 6 and
7 of the "remaining 32 characters" are not hex digits, yet `Parse` accepts
it, because `strings.ReplaceAll` removes ALL hyphens and the remaining 30
hex characters still decode. -/
def c1BadStr : List Nat :=
  [48, 48, 48, 48, 48, 48, 45, 45, 45, 48, 48, 48, 48, 45, 48, 48, 48, 48,
   45, 48, 48, 48, 48, 45, 48, 48, 48, 48, 48, 48, 48, 48, 48, 48, 48, 48]

/-- C1 counterexample: `c1BadStr` has length 36, hyphens at indices
8/13/18/23, is NOT well-formed in the claim's sense (its remaining 32
characters contain non-hex bytes, the hyphens at indices 6 and 7), yet
`Parse` succeeds on it — so `Parse` does not fail for every such malformed
input. -/
theorem parse_accepts_malformed :
    (Parse c1BadStr).2 = none ∧ c1BadStr.length = 36 ∧
    c1BadStr.getD 8 0 = 45 ∧ c1BadStr.getD 13 0 = 45 ∧
    c1BadStr.getD 18 0 = 45 ∧ c1BadStr.getD 23 0 = 45 ∧
    ¬ canonical36 c1BadStr := by decide

/-- C1 (amended): `Parse s` succeeds exactly when `s` has length 36,
hyphens at indices 8/13/18/23, and the string with ALL hyphens removed has
even length and consists of hex digits only; it fails (with an error) on
every other input.  (The original claim required the remaining 32
characters themselves to be hex digits; extra hyphens are in fact
tolerated wherever the remainder still hex-decodes.) -/
theorem parse_ok_iff (s : List Nat) : (Parse s).2 = none ↔ parseAccepts s := by
  unfold parseAccepts
  simp only [Parse]
  split_ifs with h1 h2
  · simp [h1]
  · constructor
    · intro h; simp at h
    · rintro ⟨-, e8, e13, e18, e23, -⟩
      rcases h2 with h | h | h | h <;> simp_all
  · push_neg at h1 h2
    rcases hd : hexDecode (s.filter (fun c => c != 45)) with _ | dec
    · constructor
      · intro h; simp at h
      · rintro ⟨-, -, -, -, -, hmod, hhex⟩
        have hs := (hexDecode_isSome_iff _).2 ⟨hmod, hhex⟩
        rw [hd] at hs; simp at hs
    · constructor
      · intro _
        have hs := (hexDecode_isSome_iff (s.filter (fun c => c != 45))).1
          (by rw [hd]; rfl)
        exact ⟨h1, h2.1, h2.2.1, h2.2.2.1, h2.2.2.2, hs.1, hs.2⟩
      · intro _; simp

/-- C1 witness: the well-formed namespace string is accepted. -/
theorem parse_ok_iff_witness : (Parse nsStrBytes).2 = none :=
  (parse_ok_iff nsStrBytes).mpr (by decide)

/-! ### Round-trip lemmas for the string codec. -/

theorem nibble_hi_lt (b : Nat) (h : b < 256) : b >>> 4 < 16 := by
  rw [Nat.shiftRight_eq_div_pow]; omega

theorem nibble_lo_lt (b : Nat) : b &&& 15 < 16 := by
  have h : b &&& 15 ≤ 15 := Nat.and_le_right
  omega

theorem hextable_ne_45 : ∀ v < 16, (hextable.getD v 0 != 45) = true := by decide

theorem fromHexChar_hextable : ∀ v < 16, fromHexChar (hextable.getD v 0) = some v := by
  decide

set_option maxRecDepth 4000 in
theorem nibbles_recompose : ∀ b < 256, ((b >>> 4) <<< 4) ||| (b &&& 15) = b := by decide

theorem hexDecode_byte (b : Nat) (hb : b < 256) (rest l : List Nat)
    (h : hexDecode rest = some l) :
    hexDecode (hextable.getD (b >>> 4) 0 :: hextable.getD (b &&& 15) 0 :: rest) =
      some (b :: l) := by
  simp only [hexDecode, fromHexChar_hextable _ (nibble_hi_lt b hb),
    fromHexChar_hextable _ (nibble_lo_lt b), h, Option.map_some']
  rw [nibbles_recompose b hb]

theorem filter_hexByte (b : Nat) (hb : b < 256) (rest : List Nat) :
    (hextable.getD (b >>> 4) 0 :: hextable.getD (b &&& 15) 0 :: rest).filter
      (fun c => c != 45) =
    hextable.getD (b >>> 4) 0 :: hextable.getD (b &&& 15) 0 ::
      rest.filter (fun c => c != 45) := by
  simp only [List.filter_cons, hextable_ne_45 _ (nibble_hi_lt b hb),
    hextable_ne_45 _ (nibble_lo_lt b), if_true]

theorem filter_hyphen (rest : List Nat) :
    (45 :: rest).filter (fun c => c != 45) = rest.filter (fun c => c != 45) := by
  simp only [List.filter_cons]
  norm_num

/-- C7: for every 16-byte UUID value `u` (no restriction on version or
variant bits), `Parse (String u)` succeeds and returns `u`: formatting then
parsing is the identity on all UUID values. -/
theorem string_parse_roundtrip (u : List Nat) (hlen : u.length = 16)
    (hb : ∀ c ∈ u, c < 256) : Parse (uuidString u) = (u, none) := by
  rcases u with _ | ⟨b0, u⟩; · simp at hlen
  rcases u with _ | ⟨b1, u⟩; · simp at hlen
  rcases u with _ | ⟨b2, u⟩; · simp at hlen
  rcases u with _ | ⟨b3, u⟩; · simp at hlen
  rcases u with _ | ⟨b4, u⟩; · simp at hlen
  rcases u with _ | ⟨b5, u⟩; · simp at hlen
  rcases u with _ | ⟨b6, u⟩; · simp at hlen
  rcases u with _ | ⟨b7, u⟩; · simp at hlen
  rcases u with _ | ⟨b8, u⟩; · simp at hlen
  rcases u with _ | ⟨b9, u⟩; · simp at hlen
  rcases u with _ | ⟨b10, u⟩; · simp at hlen
  rcases u with _ | ⟨b11, u⟩; · simp at hlen
  rcases u with _ | ⟨b12, u⟩; · simp at hlen
  rcases u with _ | ⟨b13, u⟩; · simp at hlen
  rcases u with _ | ⟨b14, u⟩; · simp at hlen
  rcases u with _ | ⟨b15, u⟩; · simp at hlen
  rcases u with _ | ⟨b16, u⟩
  case cons => simp at hlen
  have hb0 : b0 < 256 := hb b0 (by simp)
  have hb1 : b1 < 256 := hb b1 (by simp)
  have hb2 : b2 < 256 := hb b2 (by simp)
  have hb3 : b3 < 256 := hb b3 (by simp)
  have hb4 : b4 < 256 := hb b4 (by simp)
  have hb5 : b5 < 256 := hb b5 (by simp)
  have hb6 : b6 < 256 := hb b6 (by simp)
  have hb7 : b7 < 256 := hb b7 (by simp)
  have hb8 : b8 < 256 := hb b8 (by simp)
  have hb9 : b9 < 256 := hb b9 (by simp)
  have hb10 : b10 < 256 := hb b10 (by simp)
  have hb11 : b11 < 256 := hb b11 (by simp)
  have hb12 : b12 < 256 := hb b12 (by simp)
  have hb13 : b13 < 256 := hb b13 (by simp)
  have hb14 : b14 < 256 := hb b14 (by simp)
  have hb15 : b15 < 256 := hb b15 (by simp)
  clear hb hlen
  simp only [uuidString, List.getD_cons_zero, List.getD_cons_succ]
  simp only [Parse]
  rw [if_neg (by simp)]
  rw [if_neg (by simp)]
  rw [filter_hexByte b0 hb0, filter_hexByte b1 hb1, filter_hexByte b2 hb2, filter_hexByte b3 hb3, filter_hyphen, filter_hexByte b4 hb4, filter_hexByte b5 hb5, filter_hyphen, filter_hexByte b6 hb6, filter_hexByte b7 hb7, filter_hyphen, filter_hexByte b8 hb8, filter_hexByte b9 hb9, filter_hyphen, filter_hexByte b10 hb10, filter_hexByte b11 hb11, filter_hexByte b12 hb12, filter_hexByte b13 hb13, filter_hexByte b14 hb14, filter_hexByte b15 hb15, List.filter_nil]
  rw [show hexDecode (hextable.getD (b0 >>> 4) 0 :: hextable.getD (b0 &&& 15) 0 :: hextable.getD (b1 >>> 4) 0 :: hextable.getD (b1 &&& 15) 0 :: hextable.getD (b2 >>> 4) 0 :: hextable.getD (b2 &&& 15) 0 :: hextable.getD (b3 >>> 4) 0 :: hextable.getD (b3 &&& 15) 0 :: hextable.getD (b4 >>> 4) 0 :: hextable.getD (b4 &&& 15) 0 :: hextable.getD (b5 >>> 4) 0 :: hextable.getD (b5 &&& 15) 0 :: hextable.getD (b6 >>> 4) 0 :: hextable.getD (b6 &&& 15) 0 :: hextable.getD (b7 >>> 4) 0 :: hextable.getD (b7 &&& 15) 0 :: hextable.getD (b8 >>> 4) 0 :: hextable.getD (b8 &&& 15) 0 :: hextable.getD (b9 >>> 4) 0 :: hextable.getD (b9 &&& 15) 0 :: hextable.getD (b10 >>> 4) 0 :: hextable.getD (b10 &&& 15) 0 :: hextable.getD (b11 >>> 4) 0 :: hextable.getD (b11 &&& 15) 0 :: hextable.getD (b12 >>> 4) 0 :: hextable.getD (b12 &&& 15) 0 :: hextable.getD (b13 >>> 4) 0 :: hextable.getD (b13 &&& 15) 0 :: hextable.getD (b14 >>> 4) 0 :: hextable.getD (b14 &&& 15) 0 :: hextable.getD (b15 >>> 4) 0 :: hextable.getD (b15 &&& 15) 0 :: []) = some [b0, b1, b2, b3, b4, b5, b6, b7, b8, b9, b10, b11, b12, b13, b14, b15] from (hexDecode_byte b0 hb0 _ _ (hexDecode_byte b1 hb1 _ _ (hexDecode_byte b2 hb2 _ _ (hexDecode_byte b3 hb3 _ _ (hexDecode_byte b4 hb4 _ _ (hexDecode_byte b5 hb5 _ _ (hexDecode_byte b6 hb6 _ _ (hexDecode_byte b7 hb7 _ _ (hexDecode_byte b8 hb8 _ _ (hexDecode_byte b9 hb9 _ _ (hexDecode_byte b10 hb10 _ _ (hexDecode_byte b11 hb11 _ _ (hexDecode_byte b12 hb12 _ _ (hexDecode_byte b13 hb13 _ _ (hexDecode_byte b14 hb14 _ _ (hexDecode_byte b15 hb15 _ _ rfl))))))))))))))))]
  rfl

/-- C7 witness: the namespace UUID's raw bytes round-trip through
`String` and `Parse`. -/
theorem string_parse_roundtrip_witness :
    Parse (uuidString [21, 88, 134, 53, 164, 94, 72, 103, 170, 219, 219,
      240, 56, 90, 222, 149]) =
    ([21, 88, 134, 53, 164, 94, 72, 103, 170, 219, 219, 240, 56, 90, 222,
      149], none) :=
  string_parse_roundtrip _ (by decide) (by decide)

theorem isHexDigitByte_lt (c : Nat) (h : isHexDigitByte c = true) : c < 256 := by
  simp only [isHexDigitByte, Bool.or_eq_true, Bool.and_eq_true,
    decide_eq_true_eq] at h
  omega

set_option maxRecDepth 4000 in
theorem hexchar_facts_aux : ∀ c < 256, isHexDigitByte c = true →
    fromHexChar c = some ((fromHexChar c).getD 0) ∧ (fromHexChar c).getD 0 < 16 ∧
    hextable.getD ((fromHexChar c).getD 0) 0 = lowerByte c ∧ (c != 45) = true := by
  decide

theorem hexchar_facts (c : Nat) (h : isHexDigitByte c = true) :
    ∃ v, fromHexChar c = some v ∧ v < 16 ∧ hextable.getD v 0 = lowerByte c ∧
      (c != 45) = true := by
  obtain ⟨e, l, t, n⟩ := hexchar_facts_aux c (isHexDigitByte_lt c h) h
  exact ⟨_, e, l, t, n⟩

set_option maxRecDepth 4000 in
theorem nibble_pair :
    ∀ a < 16, ∀ b < 16, (a <<< 4 ||| b) >>> 4 = a ∧ (a <<< 4 ||| b) &&& 15 = b := by
  decide

theorem hextable_pair (vhi vlo : Nat) (hh : vhi < 16) (hl : vlo < 16) :
    hextable.getD ((vhi <<< 4 ||| vlo) >>> 4) 0 = hextable.getD vhi 0 ∧
    hextable.getD ((vhi <<< 4 ||| vlo) &&& 15) 0 = hextable.getD vlo 0 := by
  obtain ⟨e1, e2⟩ := nibble_pair vhi hh vlo hl
  rw [e1, e2]
  exact ⟨rfl, rfl⟩

theorem hexDecode_pair (hi lo vhi vlo : Nat) (ehi : fromHexChar hi = some vhi)
    (elo : fromHexChar lo = some vlo) (rest l : List Nat)
    (h : hexDecode rest = some l) :
    hexDecode (hi :: lo :: rest) = some ((vhi <<< 4 ||| vlo) :: l) := by
  simp only [hexDecode, ehi, elo, h, Option.map_some']

theorem filter_hexchar (c : Nat) (hne : (c != 45) = true) (rest : List Nat) :
    (c :: rest).filter (fun x => x != 45) = c :: rest.filter (fun x => x != 45) := by
  simp only [List.filter_cons, hne, if_true]

set_option maxRecDepth 2000 in
/-- C3: for every valid 36-character canonical string (hyphens at indices
8/13/18/23, hex digits elsewhere, upper- or lowercase), `Parse` succeeds
and `String` of the result is the lowercase form of the input; on
lowercase canonical strings the round trip is the identity. -/
theorem parse_string_lower (s : List Nat) (h : canonical36 s) :
    (Parse s).2 = none ∧ uuidString (Parse s).1 = s.map lowerByte := by
  obtain ⟨hlen, h8, h13, h18, h23, hhex⟩ := h
  rcases s with _ | ⟨c0, s⟩; · simp at hlen
  rcases s with _ | ⟨c1, s⟩; · simp at hlen
  rcases s with _ | ⟨c2, s⟩; · simp at hlen
  rcases s with _ | ⟨c3, s⟩; · simp at hlen
  rcases s with _ | ⟨c4, s⟩; · simp at hlen
  rcases s with _ | ⟨c5, s⟩; · simp at hlen
  rcases s with _ | ⟨c6, s⟩; · simp at hlen
  rcases s with _ | ⟨c7, s⟩; · simp at hlen
  rcases s with _ | ⟨c8, s⟩; · simp at hlen
  rcases s with _ | ⟨c9, s⟩; · simp at hlen
  rcases s with _ | ⟨c10, s⟩; · simp at hlen
  rcases s with _ | ⟨c11, s⟩; · simp at hlen
  rcases s with _ | ⟨c12, s⟩; · simp at hlen
  rcases s with _ | ⟨c13, s⟩; · simp at hlen
  rcases s with _ | ⟨c14, s⟩; · simp at hlen
  rcases s with _ | ⟨c15, s⟩; · simp at hlen
  rcases s with _ | ⟨c16, s⟩; · simp at hlen
  rcases s with _ | ⟨c17, s⟩; · simp at hlen
  rcases s with _ | ⟨c18, s⟩; · simp at hlen
  rcases s with _ | ⟨c19, s⟩; · simp at hlen
  rcases s with _ | ⟨c20, s⟩; · simp at hlen
  rcases s with _ | ⟨c21, s⟩; · simp at hlen
  rcases s with _ | ⟨c22, s⟩; · simp at hlen
  rcases s with _ | ⟨c23, s⟩; · simp at hlen
  rcases s with _ | ⟨c24, s⟩; · simp at hlen
  rcases s with _ | ⟨c25, s⟩; · simp at hlen
  rcases s with _ | ⟨c26, s⟩; · simp at hlen
  rcases s with _ | ⟨c27, s⟩; · simp at hlen
  rcases s with _ | ⟨c28, s⟩; · simp at hlen
  rcases s with _ | ⟨c29, s⟩; · simp at hlen
  rcases s with _ | ⟨c30, s⟩; · simp at hlen
  rcases s with _ | ⟨c31, s⟩; · simp at hlen
  rcases s with _ | ⟨c32, s⟩; · simp at hlen
  rcases s with _ | ⟨c33, s⟩; · simp at hlen
  rcases s with _ | ⟨c34, s⟩; · simp at hlen
  rcases s with _ | ⟨c35, s⟩; · simp at hlen
  rcases s with _ | ⟨c36, s⟩
  case cons => simp at hlen
  have e8 : c8 = 45 := h8
  subst e8
  have e13 : c13 = 45 := h13
  subst e13
  have e18 : c18 = 45 := h18
  subst e18
  have e23 : c23 = 45 := h23
  subst e23
  have k0 : isHexDigitByte c0 = true := hhex 0 (by omega) (by omega) (by omega) (by omega) (by omega)
  have k1 : isHexDigitByte c1 = true := hhex 1 (by omega) (by omega) (by omega) (by omega) (by omega)
  have k2 : isHexDigitByte c2 = true := hhex 2 (by omega) (by omega) (by omega) (by omega) (by omega)
  have k3 : isHexDigitByte c3 = true := hhex 3 (by omega) (by omega) (by omega) (by omega) (by omega)
  have k4 : isHexDigitByte c4 = true := hhex 4 (by omega) (by omega) (by omega) (by omega) (by omega)
  have k5 : isHexDigitByte c5 = true := hhex 5 (by omega) (by omega) (by omega) (by omega) (by omega)
  have k6 : isHexDigitByte c6 = true := hhex 6 (by omega) (by omega) (by omega) (by omega) (by omega)
  have k7 : isHexDigitByte c7 = true := hhex 7 (by omega) (by omega) (by omega) (by omega) (by omega)
  have k8 : isHexDigitByte c9 = true := hhex 9 (by omega) (by omega) (by omega) (by omega) (by omega)
  have k9 : isHexDigitByte c10 = true := hhex 10 (by omega) (by omega) (by omega) (by omega) (by omega)
  have k10 : isHexDigitByte c11 = true := hhex 11 (by omega) (by omega) (by omega) (by omega) (by omega)
  have k11 : isHexDigitByte c12 = true := hhex 12 (by omega) (by omega) (by omega) (by omega) (by omega)
  have k12 : isHexDigitByte c14 = true := hhex 14 (by omega) (by omega) (by omega) (by omega) (by omega)
  have k13 : isHexDigitByte c15 = true := hhex 15 (by omega) (by omega) (by omega) (by omega) (by omega)
  have k14 : isHexDigitByte c16 = true := hhex 16 (by omega) (by omega) (by omega) (by omega) (by omega)
  have k15 : isHexDigitByte c17 = true := hhex 17 (by omega) (by omega) (by omega) (by omega) (by omega)
  have k16 : isHexDigitByte c19 = true := hhex 19 (by omega) (by omega) (by omega) (by omega) (by omega)
  have k17 : isHexDigitByte c20 = true := hhex 20 (by omega) (by omega) (by omega) (by omega) (by omega)
  have k18 : isHexDigitByte c21 = true := hhex 21 (by omega) (by omega) (by omega) (by omega) (by omega)
  have k19 : isHexDigitByte c22 = true := hhex 22 (by omega) (by omega) (by omega) (by omega) (by omega)
  have k20 : isHexDigitByte c24 = true := hhex 24 (by omega) (by omega) (by omega) (by omega) (by omega)
  have k21 : isHexDigitByte c25 = true := hhex 25 (by omega) (by omega) (by omega) (by omega) (by omega)
  have k22 : isHexDigitByte c26 = true := hhex 26 (by omega) (by omega) (by omega) (by omega) (by omega)
  have k23 : isHexDigitByte c27 = true := hhex 27 (by omega) (by omega) (by omega) (by omega) (by omega)
  have k24 : isHexDigitByte c28 = true := hhex 28 (by omega) (by omega) (by omega) (by omega) (by omega)
  have k25 : isHexDigitByte c29 = true := hhex 29 (by omega) (by omega) (by omega) (by omega) (by omega)
  have k26 : isHexDigitByte c30 = true := hhex 30 (by omega) (by omega) (by omega) (by omega) (by omega)
  have k27 : isHexDigitByte c31 = true := hhex 31 (by omega) (by omega) (by omega) (by omega) (by omega)
  have k28 : isHexDigitByte c32 = true := hhex 32 (by omega) (by omega) (by omega) (by omega) (by omega)
  have k29 : isHexDigitByte c33 = true := hhex 33 (by omega) (by omega) (by omega) (by omega) (by omega)
  have k30 : isHexDigitByte c34 = true := hhex 34 (by omega) (by omega) (by omega) (by omega) (by omega)
  have k31 : isHexDigitByte c35 = true := hhex 35 (by omega) (by omega) (by omega) (by omega) (by omega)
  obtain ⟨v0, e0, lt0, tab0, ne0⟩ := hexchar_facts c0 k0
  obtain ⟨v1, e1, lt1, tab1, ne1⟩ := hexchar_facts c1 k1
  obtain ⟨v2, e2, lt2, tab2, ne2⟩ := hexchar_facts c2 k2
  obtain ⟨v3, e3, lt3, tab3, ne3⟩ := hexchar_facts c3 k3
  obtain ⟨v4, e4, lt4, tab4, ne4⟩ := hexchar_facts c4 k4
  obtain ⟨v5, e5, lt5, tab5, ne5⟩ := hexchar_facts c5 k5
  obtain ⟨v6, e6, lt6, tab6, ne6⟩ := hexchar_facts c6 k6
  obtain ⟨v7, e7, lt7, tab7, ne7⟩ := hexchar_facts c7 k7
  obtain ⟨v8, e8, lt8, tab8, ne8⟩ := hexchar_facts c9 k8
  obtain ⟨v9, e9, lt9, tab9, ne9⟩ := hexchar_facts c10 k9
  obtain ⟨v10, e10, lt10, tab10, ne10⟩ := hexchar_facts c11 k10
  obtain ⟨v11, e11, lt11, tab11, ne11⟩ := hexchar_facts c12 k11
  obtain ⟨v12, e12, lt12, tab12, ne12⟩ := hexchar_facts c14 k12
  obtain ⟨v13, e13, lt13, tab13, ne13⟩ := hexchar_facts c15 k13
  obtain ⟨v14, e14, lt14, tab14, ne14⟩ := hexchar_facts c16 k14
  obtain ⟨v15, e15, lt15, tab15, ne15⟩ := hexchar_facts c17 k15
  obtain ⟨v16, e16, lt16, tab16, ne16⟩ := hexchar_facts c19 k16
  obtain ⟨v17, e17, lt17, tab17, ne17⟩ := hexchar_facts c20 k17
  obtain ⟨v18, e18, lt18, tab18, ne18⟩ := hexchar_facts c21 k18
  obtain ⟨v19, e19, lt19, tab19, ne19⟩ := hexchar_facts c22 k19
  obtain ⟨v20, e20, lt20, tab20, ne20⟩ := hexchar_facts c24 k20
  obtain ⟨v21, e21, lt21, tab21, ne21⟩ := hexchar_facts c25 k21
  obtain ⟨v22, e22, lt22, tab22, ne22⟩ := hexchar_facts c26 k22
  obtain ⟨v23, e23, lt23, tab23, ne23⟩ := hexchar_facts c27 k23
  obtain ⟨v24, e24, lt24, tab24, ne24⟩ := hexchar_facts c28 k24
  obtain ⟨v25, e25, lt25, tab25, ne25⟩ := hexchar_facts c29 k25
  obtain ⟨v26, e26, lt26, tab26, ne26⟩ := hexchar_facts c30 k26
  obtain ⟨v27, e27, lt27, tab27, ne27⟩ := hexchar_facts c31 k27
  obtain ⟨v28, e28, lt28, tab28, ne28⟩ := hexchar_facts c32 k28
  obtain ⟨v29, e29, lt29, tab29, ne29⟩ := hexchar_facts c33 k29
  obtain ⟨v30, e30, lt30, tab30, ne30⟩ := hexchar_facts c34 k30
  obtain ⟨v31, e31, lt31, tab31, ne31⟩ := hexchar_facts c35 k31
  have hp : Parse [c0, c1, c2, c3, c4, c5, c6, c7, 45, c9, c10, c11, c12, 45, c14, c15, c16, c17, 45, c19, c20, c21, c22, 45, c24, c25, c26, c27, c28, c29, c30, c31, c32, c33, c34, c35] = ([v0 <<< 4 ||| v1, v2 <<< 4 ||| v3, v4 <<< 4 ||| v5, v6 <<< 4 ||| v7, v8 <<< 4 ||| v9, v10 <<< 4 ||| v11, v12 <<< 4 ||| v13, v14 <<< 4 ||| v15, v16 <<< 4 ||| v17, v18 <<< 4 ||| v19, v20 <<< 4 ||| v21, v22 <<< 4 ||| v23, v24 <<< 4 ||| v25, v26 <<< 4 ||| v27, v28 <<< 4 ||| v29, v30 <<< 4 ||| v31], none) := by
    simp only [Parse]
    rw [if_neg (by simp)]
    rw [if_neg (by simp)]
    rw [filter_hexchar c0 ne0, filter_hexchar c1 ne1, filter_hexchar c2 ne2, filter_hexchar c3 ne3, filter_hexchar c4 ne4, filter_hexchar c5 ne5, filter_hexchar c6 ne6, filter_hexchar c7 ne7, filter_hyphen, filter_hexchar c9 ne8, filter_hexchar c10 ne9, filter_hexchar c11 ne10, filter_hexchar c12 ne11, filter_hyphen, filter_hexchar c14 ne12, filter_hexchar c15 ne13, filter_hexchar c16 ne14, filter_hexchar c17 ne15, filter_hyphen, filter_hexchar c19 ne16, filter_hexchar c20 ne17, filter_hexchar c21 ne18, filter_hexchar c22 ne19, filter_hyphen, filter_hexchar c24 ne20, filter_hexchar c25 ne21, filter_hexchar c26 ne22, filter_hexchar c27 ne23, filter_hexchar c28 ne24, filter_hexchar c29 ne25, filter_hexchar c30 ne26, filter_hexchar c31 ne27, filter_hexchar c32 ne28, filter_hexchar c33 ne29, filter_hexchar c34 ne30, filter_hexchar c35 ne31, List.filter_nil]
    rw [show hexDecode (c0 :: c1 :: c2 :: c3 :: c4 :: c5 :: c6 :: c7 :: c9 :: c10 :: c11 :: c12 :: c14 :: c15 :: c16 :: c17 :: c19 :: c20 :: c21 :: c22 :: c24 :: c25 :: c26 :: c27 :: c28 :: c29 :: c30 :: c31 :: c32 :: c33 :: c34 :: c35 :: []) = some [v0 <<< 4 ||| v1, v2 <<< 4 ||| v3, v4 <<< 4 ||| v5, v6 <<< 4 ||| v7, v8 <<< 4 ||| v9, v10 <<< 4 ||| v11, v12 <<< 4 ||| v13, v14 <<< 4 ||| v15, v16 <<< 4 ||| v17, v18 <<< 4 ||| v19, v20 <<< 4 ||| v21, v22 <<< 4 ||| v23, v24 <<< 4 ||| v25, v26 <<< 4 ||| v27, v28 <<< 4 ||| v29, v30 <<< 4 ||| v31] from (hexDecode_pair c0 c1 v0 v1 e0 e1 _ _ (hexDecode_pair c2 c3 v2 v3 e2 e3 _ _ (hexDecode_pair c4 c5 v4 v5 e4 e5 _ _ (hexDecode_pair c6 c7 v6 v7 e6 e7 _ _ (hexDecode_pair c9 c10 v8 v9 e8 e9 _ _ (hexDecode_pair c11 c12 v10 v11 e10 e11 _ _ (hexDecode_pair c14 c15 v12 v13 e12 e13 _ _ (hexDecode_pair c16 c17 v14 v15 e14 e15 _ _ (hexDecode_pair c19 c20 v16 v17 e16 e17 _ _ (hexDecode_pair c21 c22 v18 v19 e18 e19 _ _ (hexDecode_pair c24 c25 v20 v21 e20 e21 _ _ (hexDecode_pair c26 c27 v22 v23 e22 e23 _ _ (hexDecode_pair c28 c29 v24 v25 e24 e25 _ _ (hexDecode_pair c30 c31 v26 v27 e26 e27 _ _ (hexDecode_pair c32 c33 v28 v29 e28 e29 _ _ (hexDecode_pair c34 c35 v30 v31 e30 e31 _ _ rfl))))))))))))))))]
    rfl
  refine ⟨by rw [hp], ?_⟩
  rw [hp]
  simp only [uuidString, List.getD_cons_zero, List.getD_cons_succ]
  rw [(hextable_pair v0 v1 lt0 lt1).1, (hextable_pair v0 v1 lt0 lt1).2, (hextable_pair v2 v3 lt2 lt3).1, (hextable_pair v2 v3 lt2 lt3).2, (hextable_pair v4 v5 lt4 lt5).1, (hextable_pair v4 v5 lt4 lt5).2, (hextable_pair v6 v7 lt6 lt7).1, (hextable_pair v6 v7 lt6 lt7).2, (hextable_pair v8 v9 lt8 lt9).1, (hextable_pair v8 v9 lt8 lt9).2, (hextable_pair v10 v11 lt10 lt11).1, (hextable_pair v10 v11 lt10 lt11).2, (hextable_pair v12 v13 lt12 lt13).1, (hextable_pair v12 v13 lt12 lt13).2, (hextable_pair v14 v15 lt14 lt15).1, (hextable_pair v14 v15 lt14 lt15).2, (hextable_pair v16 v17 lt16 lt17).1, (hextable_pair v16 v17 lt16 lt17).2, (hextable_pair v18 v19 lt18 lt19).1, (hextable_pair v18 v19 lt18 lt19).2, (hextable_pair v20 v21 lt20 lt21).1, (hextable_pair v20 v21 lt20 lt21).2, (hextable_pair v22 v23 lt22 lt23).1, (hextable_pair v22 v23 lt22 lt23).2, (hextable_pair v24 v25 lt24 lt25).1, (hextable_pair v24 v25 lt24 lt25).2, (hextable_pair v26 v27 lt26 lt27).1, (hextable_pair v26 v27 lt26 lt27).2, (hextable_pair v28 v29 lt28 lt29).1, (hextable_pair v28 v29 lt28 lt29).2, (hextable_pair v30 v31 lt30 lt31).1, (hextable_pair v30 v31 lt30 lt31).2]
  rw [tab0, tab1, tab2, tab3, tab4, tab5, tab6, tab7, tab8, tab9, tab10, tab11, tab12, tab13, tab14, tab15, tab16, tab17, tab18, tab19, tab20, tab21, tab22, tab23, tab24, tab25, tab26, tab27, tab28, tab29, tab30, tab31]
  rfl

/-- ASCII bytes of `"4C816DC1-9418-502E-9B91-F17B83891BF8"` (uppercase). -/
def upperStrBytes : List Nat :=
  [52, 67, 56, 49, 54, 68, 67, 49, 45, 57, 52, 49, 56, 45, 53, 48, 50, 69,
   45, 57, 66, 57, 49, 45, 70, 49, 55, 66, 56, 51, 56, 57, 49, 66, 70, 56]

/-- C3 witness: an uppercase canonical string parses, and re-rendering
yields its lowercase form. -/
theorem parse_string_lower_witness :
    canonical36 upperStrBytes ∧
    ((Parse upperStrBytes).2 = none ∧
      uuidString (Parse upperStrBytes).1 = upperStrBytes.map lowerByte) :=
  ⟨by decide, parse_string_lower upperStrBytes (by decide)⟩
